import Mathlib

/-
Verification of the live face-analysis client (facerecog repository).

The development shallowly embeds the client-side orchestration code:
the continuous camera scheduler of CameraAnalysis, the overlay renderer
and capture loop of the Camera component, the upload / submit handlers
of Analysis, FaceRegistration and GroupAnalysis, and the camera
start/stop lifecycle.  Rational numbers stand in for JavaScript's
floating-point arithmetic; state updates of the React components are
modelled as explicit state-transition functions, with event traces for
the cooperative single-threaded interleavings.
-/

namespace FaceRecog

/-- A face bounding box in pixel coordinates, the source's
`box: [x, y, width, height]` tuple.  Rational components model the
renderer's floating-point arithmetic. -/
structure Box where
  x : ℚ
  y : ℚ
  w : ℚ
  h : ℚ
deriving DecidableEq, Repr

/-- Camera.drawDetections (live overlay): the scale factor applied to every
box component is `canvas.width / video.videoWidth`. -/
def drawScale (canvasWidth videoWidth : ℚ) : ℚ :=
  canvasWidth / videoWidth

/-- Camera.drawDetections: the rectangle actually drawn for a face box,
`strokeRect(x * scale, y * scale, w * scale, h * scale)` — the same
width-derived scale multiplies all four components, including y and h. -/
def drawnBox (canvasWidth videoWidth : ℚ) (b : Box) : Box :=
  ⟨b.x * drawScale canvasWidth videoWidth,
   b.y * drawScale canvasWidth videoWidth,
   b.w * drawScale canvasWidth videoWidth,
   b.h * drawScale canvasWidth videoWidth⟩

/-- Modelled from the spec: the box-scaling formula stated by the claim,
rendering a box of the native (W, H) frame onto a (Wd, Hd) display at
(x·Wd/W, y·Hd/H, w·Wd/W, h·Hd/H).  Kept separate from `drawnBox`, which is
translated from the source, so the two can be compared. -/
def specScaledBox (W H Wd Hd : ℚ) (b : Box) : Box :=
  ⟨b.x * (Wd / W), b.y * (Hd / H), b.w * (Wd / W), b.h * (Hd / H)⟩

/-- A detected face as consumed by the renderers: `{name, confidence, box}`. -/
structure Face where
  name : String
  confidence : ℚ
  box : Box
deriving DecidableEq, Repr

/-- The two pieces of Analysis-page state that feed the two confidence
renderers: `result` is rendered by renderResults, `detectedFaces` is the
list handed to the Camera overlay. -/
structure AnalysisView where
  result : Option (List Face)
  detectedFaces : List Face
deriving DecidableEq, Repr

/-- Analysis.handleIdentifyFace on a successful response: `setResult(data)`
and `setDetectedFaces(data.results)` store the same face list for both the
results panel and the live overlay. -/
def applyIdentifySuccess (v : AnalysisView) (rs : List Face) : AnalysisView :=
  { v with result := some rs, detectedFaces := rs }

/-- Camera.drawDetections label: the number displayed for a face is
`face.confidence * 100` (then toFixed(1), with a percent sign). -/
def overlayConfidenceValue (c : ℚ) : ℚ := c * 100

/-- Analysis.renderResults label: the number displayed is `face.confidence`
unchanged (then toFixed(2), with a percent sign). -/
def renderResultsConfidenceValue (c : ℚ) : ℚ := c

/-- GroupAnalysis results list label: the number displayed is
`face.confidence * 100` (then toFixed(2), with a percent sign). -/
def groupAnalysisConfidenceValue (c : ℚ) : ℚ := c * 100

/-- Analysis/FaceRegistration handleImageUpload: for each file of the change
event the code checks `selectedImages.length + newImages.length < 5` and, if
the check passes, starts a FileReader whose onloadend later appends the image
through a functional state update.  The local array `newImages` is declared
but never pushed to, so the accumulator's first component is threaded
unchanged, exactly as in the source; the second component collects the
readers that were started, all of which eventually append. -/
def handleImageUpload (selectedImages files : List String) : List String :=
  let loop := files.foldl
    (fun (acc : List String × List String) f =>
      if selectedImages.length + acc.1.length < 5 then (acc.1, acc.2 ++ [f]) else acc)
    ([], [])
  selectedImages ++ loop.2

/-- GroupAnalysis mode toggle. -/
inductive GAMode
  | analysis
  | verification
deriving DecidableEq, Repr

/-- The network request GroupAnalysis.handleSubmit issues: the endpoint, the
image, and (in verification mode only) the required_users field. -/
structure GroupRequest where
  endpoint : String
  image : String
  requiredUsers : Option (List String)
deriving DecidableEq, Repr

/-- Outcome of the synchronous prefix of GroupAnalysis.handleSubmit, up to and
including the request that is issued: the request (if any), the error state,
and the results state after the guard phase. -/
structure GroupSubmitOutcome where
  request : Option GroupRequest
  error : Option String
  resultsAfterGuards : Option Nat
deriving DecidableEq, Repr

/-- GroupAnalysis.handleSubmit: returns early with an error and no request
when no image is present, or when verification mode has no required users
(`requiredUsers.length === 0`); otherwise clears error and results and posts
to /api/analyze-group or /api/verify-group, attaching required_users only in
verification mode.  The stored results value is abstracted to `Option Nat`. -/
def groupHandleSubmit (mode : GAMode) (imageBase64 : Option String)
    (requiredUsers : List String) (results : Option Nat) : GroupSubmitOutcome :=
  match imageBase64 with
  | none =>
      { request := none
        error := some "Please select an image or capture one from the camera"
        resultsAfterGuards := results }
  | some img =>
      if mode = GAMode.verification ∧ requiredUsers.length = 0 then
        { request := none
          error := some "Please select at least one required user for verification"
          resultsAfterGuards := results }
      else
        { request := some
            { endpoint :=
                if mode = GAMode.analysis then "/api/analyze-group" else "/api/verify-group"
              image := img
              requiredUsers :=
                if mode = GAMode.verification then some requiredUsers else none }
          error := none
          resultsAfterGuards := none }

/-- The refs and media state CameraAnalysis.captureFrame reads: whether the
video element, canvas element and 2d context are available, and the video's
current dimensions. -/
structure Surface where
  videoPresent : Bool
  canvasPresent : Bool
  contextPresent : Bool
  videoWidth : Nat
  videoHeight : Nat
deriving DecidableEq, Repr

/-- `canvas.toDataURL('image/jpeg')` of a canvas resized to the given
dimensions. -/
inductive Payload
  | dataUrl (w h : Nat)
deriving DecidableEq, Repr

/-- CameraAnalysis.captureFrame: whenever the video element, canvas element
and 2d context are all available it resizes the canvas to
video.videoWidth × video.videoHeight, draws the frame, and returns the data
URL — with no check on the dimensions; otherwise it returns null. -/
def captureFrame (s : Surface) : Option Payload :=
  if s.videoPresent ∧ s.canvasPresent ∧ s.contextPresent then
    some (Payload.dataUrl s.videoWidth s.videoHeight)
  else none

/-- A frame-producing surface: all refs available, 640×480 video. -/
def goodSurf : Surface := ⟨true, true, true, 640, 480⟩

/-- A surface whose refs are available but whose video has not yet produced
frames: both dimensions are zero. -/
def zeroSurf : Surface := ⟨true, true, true, 0, 0⟩

/-- A surface whose element refs are not available (e.g. before mount). -/
def noRefSurf : Surface := ⟨false, false, false, 0, 0⟩

/-- State of the CameraAnalysis component's continuous scheduler.
`running` is whether the setInterval timer is installed; `busy` is the
isProcessing flag; `pending` lists the in-flight fetches, each tagged
(as ghost instrumentation) with the generation that submitted it;
`activeGen` is the ghost count of interval registrations; `results` is the
published results state, ghost-tagged with the generation whose response
produced it; `encodes` and `submits` are ghost counters of performed frame
captures and issued fetches. -/
structure SchedState where
  running : Bool
  activeGen : Nat
  busy : Bool
  pending : List Nat
  results : Option (Nat × Nat)
  encodes : Nat
  submits : Nat
deriving DecidableEq, Repr

/-- Events of the scheduler: `start` = the interval effect (re)registers the
timer (a new generation); `stop` = the effect cleanup clears the timer;
`tick surf` = the timer fires and processFrame runs against the surface;
`settleOk d` = the oldest in-flight fetch resolves with a parsed body `d`
(`setResults(data)` then the finally clause); `settleErr` = it rejects or
returns !response.ok (console.error only, then the finally clause). -/
inductive SchedEv
  | start
  | stop
  | tick (surf : Surface)
  | settleOk (d : Nat)
  | settleErr
deriving DecidableEq, Repr

/-- Initial component state: no timer, not busy, nothing in flight, no
published results. -/
def schedInit : SchedState :=
  { running := false, activeGen := 0, busy := false, pending := [],
    results := none, encodes := 0, submits := 0 }

/-- One scheduler step, translated from CameraAnalysis.  processFrame first
calls captureFrame (the encode happens whenever the refs are available,
before any busy check), then returns if the frame is null or isProcessing is
set, otherwise sets the busy flag and issues the fetch; a settling fetch
updates results (success only) and clears the busy flag in the finally
clause, with no generation comparison. -/
def schedStep (s : SchedState) (e : SchedEv) : SchedState :=
  match e with
  | .start => { s with running := true, activeGen := s.activeGen + 1 }
  | .stop => { s with running := false }
  | .tick surf =>
      if s.running then
        match captureFrame surf with
        | none => s
        | some _ =>
            if s.busy then { s with encodes := s.encodes + 1 }
            else { s with encodes := s.encodes + 1, busy := true,
                          submits := s.submits + 1,
                          pending := s.pending ++ [s.activeGen] }
      else s
  | .settleOk d =>
      match s.pending with
      | [] => s
      | g :: rest => { s with pending := rest, busy := false, results := some (g, d) }
  | .settleErr =>
      match s.pending with
      | [] => s
      | _ :: rest => { s with pending := rest, busy := false }

/-- Run the scheduler from the initial state over a trace of events. -/
def schedRun (evs : List SchedEv) : SchedState :=
  evs.foldl schedStep schedInit

/-- The single-in-flight invariant: at most one fetch pending, and none when
the busy flag is clear. -/
def SchedInv (s : SchedState) : Prop :=
  s.pending.length ≤ 1 ∧ (s.busy = false → s.pending = [])

theorem schedInv_step (s : SchedState) (e : SchedEv) (h : SchedInv s) :
    SchedInv (schedStep s e) := by
  obtain ⟨h1, h2⟩ := h
  cases e with
  | start => exact ⟨h1, h2⟩
  | stop => exact ⟨h1, h2⟩
  | tick surf =>
      simp only [schedStep]
      by_cases hr : s.running
      · rw [if_pos hr]
        cases captureFrame surf with
        | none => exact ⟨h1, h2⟩
        | some p =>
            by_cases hb : s.busy
            · rw [if_pos hb]
              exact ⟨h1, h2⟩
            · rw [if_neg hb]
              have hp : s.pending = [] := h2 (by simpa using hb)
              exact ⟨by simp [hp], fun hf => by simp at hf⟩
      · rw [if_neg hr]
        exact ⟨h1, h2⟩
  | settleOk d =>
      simp only [schedStep]
      cases hp : s.pending with
      | nil => exact ⟨h1, h2⟩
      | cons g rest =>
          rw [hp] at h1
          simp only [List.length_cons] at h1
          have hrest : rest = [] := List.length_eq_zero.mp (by omega)
          subst hrest
          exact ⟨Nat.zero_le 1, fun _ => rfl⟩
  | settleErr =>
      simp only [schedStep]
      cases hp : s.pending with
      | nil => exact ⟨h1, h2⟩
      | cons g rest =>
          rw [hp] at h1
          simp only [List.length_cons] at h1
          have hrest : rest = [] := List.length_eq_zero.mp (by omega)
          subst hrest
          exact ⟨Nat.zero_le 1, fun _ => rfl⟩

theorem schedInv_foldl (evs : List SchedEv) :
    ∀ s : SchedState, SchedInv s → SchedInv (evs.foldl schedStep s) := by
  induction evs with
  | nil => exact fun s h => h
  | cons e evs ih => exact fun s h => ih (schedStep s e) (schedInv_step s e h)

theorem schedInv_run (evs : List SchedEv) : SchedInv (schedRun evs) :=
  schedInv_foldl evs schedInit ⟨by simp [schedInit], fun _ => rfl⟩

/-- The CameraAnalysis camera lifecycle.  A hardware `Track` acquired through
getUserMedia, with a flag recording whether track.stop() has been called. -/
structure Track where
  id : Nat
  stopped : Bool
deriving DecidableEq, Repr

/-- Camera-session state: a fresh-id counter, the ghost registry of every
hardware track ever acquired, and the ids of the tracks of the stream
attached to the video element's srcObject (if any). -/
structure CamState where
  nextId : Nat
  acquired : List Track
  srcObject : Option (List Nat)
deriving DecidableEq, Repr

/-- No stream requested yet. -/
def camInit : CamState := ⟨0, [], none⟩

/-- track.stop() on one registry entry, when its id belongs to the stream
being stopped. -/
def stopOne (ids : List Nat) (t : Track) : Track :=
  if t.id ∈ ids then { t with stopped := true } else t

/-- `stream.getTracks().forEach(track => track.stop())` over the registry. -/
def stopTracks (ids : List Nat) (ts : List Track) : List Track :=
  ts.map (stopOne ids)

/-- Camera lifecycle events, translated from CameraAnalysis.startCamera and
stopCamera.  `startResolve p`: the getUserMedia promise resolves with a fresh
stream; the source then attaches it with `if (videoRef.current)
videoRef.current.srcObject = stream`, so the stream is attached only when the
video element is still present (`p`).  `stopCamera`: if the video element has
a srcObject, stop every one of its tracks; otherwise do nothing. -/
inductive CamEv
  | startResolve (videoRefPresent : Bool)
  | stopCamera
deriving DecidableEq, Repr

/-- One camera-lifecycle step. -/
def camStep (s : CamState) (e : CamEv) : CamState :=
  match e with
  | .startResolve p =>
      { nextId := s.nextId + 1
        acquired := s.acquired ++ [⟨s.nextId, false⟩]
        srcObject := if p then some [s.nextId] else s.srcObject }
  | .stopCamera =>
      match s.srcObject with
      | none => s
      | some ids => { s with acquired := stopTracks ids s.acquired }

/-- Run the camera lifecycle from the initial state over a trace. -/
def camRun (evs : List CamEv) : CamState :=
  evs.foldl camStep camInit

theorem stopOne_idem (ids : List Nat) (t : Track) :
    stopOne ids (stopOne ids t) = stopOne ids t := by
  unfold stopOne
  by_cases h : t.id ∈ ids <;> simp [h]

theorem stopTracks_idem (ids : List Nat) (ts : List Track) :
    stopTracks ids (stopTracks ids ts) = stopTracks ids ts := by
  unfold stopTracks
  rw [List.map_map]
  exact List.map_congr_left fun t _ => stopOne_idem ids t

/-- The per-request options a submission site passes to its HTTP client:
the method, whether a JSON content type is set, and the timeout, if one is
configured (none means the site passes no timeout at all, so the call has no
client-side expiry). -/
structure RequestInit where
  method : String
  jsonContentType : Bool
  timeoutMs : Option Nat
deriving DecidableEq, Repr

/-- CameraAnalysis.processFrame: `fetch(url, {method: 'POST', headers:
{'Content-Type': 'application/json'}, body})` — no timeout and no abort
signal are supplied. -/
def processFrameFetchInit : RequestInit :=
  { method := "POST", jsonContentType := true, timeoutMs := none }

/-- Analysis.handleIdentifyFace: `axios.post(url, {image})` — no config
object, hence no timeout option, is supplied. -/
def identifyFaceAxiosInit : RequestInit :=
  { method := "POST", jsonContentType := true, timeoutMs := none }

/-- GroupAnalysis.handleSubmit: `axios.post(endpoint, requestData)` — no
config object, hence no timeout option, is supplied. -/
def groupSubmitAxiosInit : RequestInit :=
  { method := "POST", jsonContentType := true, timeoutMs := none }

/-- How a failed axios submission presents to GroupAnalysis's catch block:
the server responded with a failure status (carrying an optional message),
the request went out but no response was received, the request could not be
set up, or the thrown value was not an axios error. -/
inductive AxiosFailure
  | response (message : Option String)
  | request
  | setup
  | nonAxios
deriving DecidableEq, Repr

/-- GroupAnalysis.handleSubmit catch block: the error message set for each
failure shape; a settled call with no response received is classified as a
network problem. -/
def groupAnalysisCatchMessage : AxiosFailure → String
  | .response (some m) => m
  | .response none => "An error occurred during group analysis"
  | .request => "No response received from the server. Please check your network connection."
  | .setup => "An unexpected error occurred. Please try again."
  | .nonAxios => "An unexpected error occurred. Please try again."

end FaceRecog

namespace FaceRecog

/-- C7 counterexample: the claim's formula scales y and h by Hd/H, but the
code scales them by Wd/W.  With native frame 100×100, display 200×50 and box
(0, 10, 10, 10) the code draws (0, 20, 20, 20) while the claimed formula
gives (0, 5, 20, 5). -/
theorem C7_vertical_scale_cex :
    drawnBox 200 100 ⟨0, 10, 10, 10⟩ = ⟨0, 20, 20, 20⟩ ∧
    specScaledBox 100 100 200 50 ⟨0, 10, 10, 10⟩ = ⟨0, 5, 20, 5⟩ ∧
    drawnBox 200 100 ⟨0, 10, 10, 10⟩ ≠ specScaledBox 100 100 200 50 ⟨0, 10, 10, 10⟩ := by
  refine ⟨by norm_num [drawnBox, drawScale], by norm_num [specScaledBox], ?_⟩
  norm_num [drawnBox, drawScale, specScaledBox]

/-- C7 (amended): the renderer scales all four box components by the single
factor Wd/W; this coincides with the claimed per-axis formula exactly when
the display preserves the frame's aspect ratio (Wd/W = Hd/H, the assumption
the spec itself makes), and identity scaling (Wd = W) is a no-op. -/
theorem C7_uniform_scale (W H Wd Hd : ℚ) (b : Box) (hW : W ≠ 0) :
    drawnBox W W b = b ∧
    (Wd / W = Hd / H → drawnBox Wd W b = specScaledBox W H Wd Hd b) := by
  constructor
  · cases b
    simp [drawnBox, drawScale, div_self hW]
  · intro hA
    cases b
    simp [drawnBox, drawScale, specScaledBox, hA]

/-- C7 witness: the amended theorem applied at W = 2, H = 3, Wd = 4, Hd = 6
and the box (1, 2, 3, 4). -/
theorem C7_uniform_scale_wit :
    drawnBox 2 2 ⟨1, 2, 3, 4⟩ = ⟨1, 2, 3, 4⟩ ∧
    ((4 : ℚ) / 2 = (6 : ℚ) / 3 →
      drawnBox 4 2 ⟨1, 2, 3, 4⟩ = specScaledBox 2 3 4 6 ⟨1, 2, 3, 4⟩) :=
  C7_uniform_scale 2 3 4 6 ⟨1, 2, 3, 4⟩ (by norm_num)

/-- C8 counterexample: one identify-face response stores the same face list
for both renderers, yet the overlay displays confidence·100 while
renderResults displays confidence unchanged: for confidence 95 the two
displayed numbers are 9500 and 95.  They differ, so at most one of them can
equal the producing endpoint's percentage value — the displayed number is
fixed per render site, not per endpoint convention. -/
theorem C8_dual_display_cex :
    (applyIdentifySuccess ⟨none, []⟩ [⟨"alice", 95, ⟨0, 0, 1, 1⟩⟩]).detectedFaces =
      [⟨"alice", 95, ⟨0, 0, 1, 1⟩⟩] ∧
    (applyIdentifySuccess ⟨none, []⟩ [⟨"alice", 95, ⟨0, 0, 1, 1⟩⟩]).result =
      some [⟨"alice", 95, ⟨0, 0, 1, 1⟩⟩] ∧
    overlayConfidenceValue 95 = 9500 ∧
    renderResultsConfidenceValue 95 = 95 ∧
    overlayConfidenceValue 95 ≠ renderResultsConfidenceValue 95 := by
  refine ⟨rfl, rfl, by norm_num [overlayConfidenceValue],
    rfl, by norm_num [overlayConfidenceValue, renderResultsConfidenceValue]⟩

/-- C8 (amended): confidence formatting is fixed per render site, not per
endpoint.  A successful identify response feeds the same face list to both
the overlay and the results panel, and for every face the overlay displays
exactly 100 times the number renderResults displays (GroupAnalysis formats
like the overlay). -/
theorem C8_per_site_formatting (v : AnalysisView) (rs : List Face) (f : Face)
    (hf : f ∈ rs) :
    f ∈ (applyIdentifySuccess v rs).detectedFaces ∧
    (applyIdentifySuccess v rs).result = some rs ∧
    overlayConfidenceValue f.confidence =
      100 * renderResultsConfidenceValue f.confidence ∧
    groupAnalysisConfidenceValue f.confidence = overlayConfidenceValue f.confidence := by
  refine ⟨hf, rfl, ?_, rfl⟩
  simp [overlayConfidenceValue, renderResultsConfidenceValue, mul_comm]

/-- C8 witness: the amended theorem applied to the single-face list holding
("alice", confidence 95). -/
theorem C8_per_site_formatting_wit :
    (⟨"alice", 95, ⟨0, 0, 1, 1⟩⟩ : Face) ∈
      (applyIdentifySuccess ⟨none, []⟩ [⟨"alice", 95, ⟨0, 0, 1, 1⟩⟩]).detectedFaces ∧
    (applyIdentifySuccess ⟨none, []⟩ [⟨"alice", 95, ⟨0, 0, 1, 1⟩⟩]).result =
      some [⟨"alice", 95, ⟨0, 0, 1, 1⟩⟩] ∧
    overlayConfidenceValue (Face.confidence ⟨"alice", 95, ⟨0, 0, 1, 1⟩⟩) =
      100 * renderResultsConfidenceValue (Face.confidence ⟨"alice", 95, ⟨0, 0, 1, 1⟩⟩) ∧
    groupAnalysisConfidenceValue (Face.confidence ⟨"alice", 95, ⟨0, 0, 1, 1⟩⟩) =
      overlayConfidenceValue (Face.confidence ⟨"alice", 95, ⟨0, 0, 1, 1⟩⟩) :=
  C8_per_site_formatting ⟨none, []⟩ [⟨"alice", 95, ⟨0, 0, 1, 1⟩⟩]
    ⟨"alice", 95, ⟨0, 0, 1, 1⟩⟩ (List.mem_singleton.mpr rfl)

/-- C9: the upload handler's five-image cap is broken.  Because `newImages`
is never appended to, the guard compares `selectedImages.length + 0 < 5` for
every file of the batch, so a single change event carrying six files starts
six readers and all six images are appended: the stored set reaches size 6,
contradicting the 1–5 bound stated by the claim, by the code's own
"Limit to 5 images" comment, and by the on-screen "(1-5 images)" label. -/
theorem C9_upload_cap_violated :
    (handleImageUpload [] ["i1", "i2", "i3", "i4", "i5", "i6"]).length = 6 ∧
    ¬ (handleImageUpload [] ["i1", "i2", "i3", "i4", "i5", "i6"]).length ≤ 5 := by
  refine ⟨rfl, by decide⟩

/-- C10: in verification mode with an empty required-users list, handleSubmit
returns before any network request: the request is none, an error message is
set, and the stored results are left unchanged; and any request that reaches
the /api/verify-group endpoint carries the (nonempty) required-users list. -/
theorem C10_verify_requires_users (mode mode2 : GAMode) (img img2 : Option String)
    (ru ru2 : List String) (results results2 : Option Nat) (req : GroupRequest)
    (hmode : mode = GAMode.verification) (hru : ru.length = 0) :
    ((groupHandleSubmit mode img ru results).request = none ∧
     (groupHandleSubmit mode img ru results).error.isSome = true ∧
     (groupHandleSubmit mode img ru results).resultsAfterGuards = results) ∧
    ((groupHandleSubmit mode2 img2 ru2 results2).request = some req →
      req.endpoint = "/api/verify-group" →
      1 ≤ ru2.length ∧ req.requiredUsers = some ru2) := by
  constructor
  · subst hmode
    cases img with
    | none => exact ⟨rfl, rfl, rfl⟩
    | some i => simp [groupHandleSubmit, hru]
  · intro hreq hep
    cases img2 with
    | none => simp [groupHandleSubmit] at hreq
    | some i =>
      cases mode2 with
      | analysis =>
        simp only [groupHandleSubmit] at hreq
        rw [if_neg (by simp)] at hreq
        simp only [Option.some.injEq] at hreq
        subst hreq
        simp at hep
      | verification =>
        simp only [groupHandleSubmit] at hreq
        by_cases hlen : ru2.length = 0
        · rw [if_pos (by simp [hlen])] at hreq
          simp at hreq
        · rw [if_neg (by simp [hlen])] at hreq
          simp only [Option.some.injEq] at hreq
          subst hreq
          exact ⟨Nat.one_le_iff_ne_zero.mpr hlen, by simp⟩

/-- C10 witness: the theorem applied at verification mode with no required
users (guard fires) and at a verification submit carrying ["alice"] (request
reaches /api/verify-group with one required user). -/
theorem C10_verify_requires_users_wit :
    ((groupHandleSubmit GAMode.verification (some "img") [] none).request = none ∧
     (groupHandleSubmit GAMode.verification (some "img") [] none).error.isSome = true ∧
     (groupHandleSubmit GAMode.verification (some "img") [] none).resultsAfterGuards = none) ∧
    ((groupHandleSubmit GAMode.verification (some "img") ["alice"] none).request =
        some ⟨"/api/verify-group", "img", some ["alice"]⟩ →
      GroupRequest.endpoint ⟨"/api/verify-group", "img", some ["alice"]⟩ = "/api/verify-group" →
      1 ≤ (["alice"] : List String).length ∧
      GroupRequest.requiredUsers ⟨"/api/verify-group", "img", some ["alice"]⟩ =
        some ["alice"]) :=
  C10_verify_requires_users GAMode.verification GAMode.verification (some "img")
    (some "img") [] ["alice"] none none
    ⟨"/api/verify-group", "img", some ["alice"]⟩ rfl rfl

/-- C1 counterexample: with the first tick's fetch still in flight, the
second tick performs no submit but does perform the encode —
CameraAnalysis.processFrame calls captureFrame (resize, drawImage, toDataURL)
before checking isProcessing — so the claim's "tick N+1 performs no encode"
is false: the encode counter rises from 1 to 2 while the submit counter
stays at 1. -/
theorem C1_encode_on_busy_cex :
    (schedRun [SchedEv.start, SchedEv.tick goodSurf]).busy = true ∧
    (schedRun [SchedEv.start, SchedEv.tick goodSurf]).encodes = 1 ∧
    (schedRun [SchedEv.start, SchedEv.tick goodSurf, SchedEv.tick goodSurf]).encodes = 2 ∧
    (schedRun [SchedEv.start, SchedEv.tick goodSurf, SchedEv.tick goodSurf]).submits = 1 := by
  decide

/-- C1 (amended): along every event trace at most one inference request is
outstanding, and a tick that fires while the busy flag is set performs no
submit and queues nothing — the tick is dropped, not buffered.  (The frame
encode, however, still runs on such a tick; see the counterexample.) -/
theorem C1_at_most_one_inflight (evs : List SchedEv) (s : SchedState) (surf : Surface)
    (hb : s.busy = true) :
    (schedRun evs).pending.length ≤ 1 ∧
    (schedStep s (SchedEv.tick surf)).submits = s.submits ∧
    (schedStep s (SchedEv.tick surf)).pending = s.pending := by
  refine ⟨(schedInv_run evs).1, ?_, ?_⟩ <;>
    · simp only [schedStep]
      by_cases hr : s.running
      · rw [if_pos hr]
        cases captureFrame surf with
        | none => rfl
        | some p => rw [if_pos hb]
      · rw [if_neg hr]

/-- C1 witness: the amended theorem applied to the trace [start, tick] and
the busy state that trace reaches. -/
theorem C1_at_most_one_inflight_wit :
    (schedRun [SchedEv.start, SchedEv.tick goodSurf]).pending.length ≤ 1 ∧
    (schedStep (schedRun [SchedEv.start, SchedEv.tick goodSurf])
        (SchedEv.tick goodSurf)).submits =
      (schedRun [SchedEv.start, SchedEv.tick goodSurf]).submits ∧
    (schedStep (schedRun [SchedEv.start, SchedEv.tick goodSurf])
        (SchedEv.tick goodSurf)).pending =
      (schedRun [SchedEv.start, SchedEv.tick goodSurf]).pending :=
  C1_at_most_one_inflight [SchedEv.start, SchedEv.tick goodSurf]
    (schedRun [SchedEv.start, SchedEv.tick goodSurf]) goodSurf (by decide)

/-- C2 counterexample: generation 1 submits, the scheduler is stopped and a
new generation started; when generation 1's response then settles it is
published anyway — the store holds the generation-1 result while the active
generation is 2, because setResults runs with no generation comparison. -/
theorem C2_stale_publish_cex :
    (schedRun [SchedEv.start, SchedEv.tick goodSurf, SchedEv.stop, SchedEv.start,
               SchedEv.settleOk 7]).results = some (1, 7) ∧
    (schedRun [SchedEv.start, SchedEv.tick goodSurf, SchedEv.stop, SchedEv.start,
               SchedEv.settleOk 7]).activeGen = 2 ∧
    (1 : Nat) ≠ 2 := by
  decide

/-- C2 (amended): stopping the scheduler halts the tick timer (a tick while
stopped changes nothing), but there is no generation token: an in-flight
response, when it settles, is published with the generation that submitted
it, unconditionally — even after the scheduler was stopped or replaced. -/
theorem C2_stop_halts_ticks (s : SchedState) (surf : Surface) (d g : Nat)
    (rest : List Nat) (hr : s.running = false) (hp : s.pending = g :: rest) :
    schedStep s (SchedEv.tick surf) = s ∧
    (schedStep s (SchedEv.settleOk d)).results = some (g, d) := by
  constructor
  · simp only [schedStep]
    rw [if_neg (by simp [hr])]
  · simp only [schedStep]
    rw [hp]

/-- C2 witness: the amended theorem applied to the stopped state reached by
[start, tick, stop], whose pending request was submitted by generation 1. -/
theorem C2_stop_halts_ticks_wit :
    schedStep (schedRun [SchedEv.start, SchedEv.tick goodSurf, SchedEv.stop])
        (SchedEv.tick goodSurf) =
      schedRun [SchedEv.start, SchedEv.tick goodSurf, SchedEv.stop] ∧
    (schedStep (schedRun [SchedEv.start, SchedEv.tick goodSurf, SchedEv.stop])
        (SchedEv.settleOk 7)).results = some (1, 7) :=
  C2_stop_halts_ticks (schedRun [SchedEv.start, SchedEv.tick goodSurf, SchedEv.stop])
    goodSurf 7 1 [] (by decide) (by decide)

/-- C3 counterexample: none of the submission sites configures any timeout —
processFrame's fetch passes no timeout or abort signal, and the axios.post
calls of Analysis and GroupAnalysis pass no config — so the claimed bounded
timeout (policy default 10 s) is absent and bounded settlement is not
guaranteed by the client code. -/
theorem C3_no_timeout_cex :
    processFrameFetchInit.timeoutMs = none ∧
    identifyFaceAxiosInit.timeoutMs = none ∧
    groupSubmitAxiosInit.timeoutMs = none ∧
    processFrameFetchInit.timeoutMs ≠ some 10000 := by
  decide

/-- C3 (amended): no submission site configures a timeout; what the code does
guarantee is that whenever a submission settles — successfully or not — the
busy flag is cleared, and that a settlement with no response received is
surfaced as a network-connection error message in GroupAnalysis. -/
theorem C3_settle_clears_busy (s : SchedState) (g d : Nat) (rest : List Nat)
    (hp : s.pending = g :: rest) :
    processFrameFetchInit.timeoutMs = none ∧
    (schedStep s (SchedEv.settleOk d)).busy = false ∧
    (schedStep s SchedEv.settleErr).busy = false ∧
    groupAnalysisCatchMessage AxiosFailure.request =
      "No response received from the server. Please check your network connection." := by
  refine ⟨rfl, ?_, ?_, rfl⟩ <;>
    · simp only [schedStep]
      rw [hp]

/-- C3 witness: the amended theorem applied to the in-flight state reached by
[start, tick]. -/
theorem C3_settle_clears_busy_wit :
    processFrameFetchInit.timeoutMs = none ∧
    (schedStep (schedRun [SchedEv.start, SchedEv.tick goodSurf])
        (SchedEv.settleOk 7)).busy = false ∧
    (schedStep (schedRun [SchedEv.start, SchedEv.tick goodSurf])
        SchedEv.settleErr).busy = false ∧
    groupAnalysisCatchMessage AxiosFailure.request =
      "No response received from the server. Please check your network connection." :=
  C3_settle_clears_busy (schedRun [SchedEv.start, SchedEv.tick goodSurf]) 1 7 []
    (by decide)

/-- C4 counterexample: on a surface whose refs are present but whose video
still reports zero dimensions, captureFrame returns a 0×0 data-URL payload —
not a classified NotReady failure (no such classification exists; null is
returned only when a ref or the 2d context is missing) — and the scheduler
then submits that payload to the backend instead of skipping the cycle. -/
theorem C4_zero_dims_cex :
    captureFrame zeroSurf = some (Payload.dataUrl 0 0) ∧
    captureFrame zeroSurf ≠ none ∧
    (schedRun [SchedEv.start, SchedEv.tick zeroSurf]).submits = 1 ∧
    (schedRun [SchedEv.start, SchedEv.tick zeroSurf]).pending = [1] := by
  decide

/-- C4 (amended): the only encode failure the code classifies is a null
frame, produced exactly when the video element, canvas element, or 2d
context is unavailable; on a null frame the tick changes nothing (no encode,
no submit), while a zero-dimension surface with refs available yields a 0×0
payload that is submitted. -/
theorem C4_skip_on_null_frame (s : SchedState) (surf : Surface)
    (hc : captureFrame surf = none) :
    schedStep s (SchedEv.tick surf) = s ∧
    captureFrame zeroSurf = some (Payload.dataUrl 0 0) := by
  constructor
  · simp only [schedStep, hc]
    by_cases hr : s.running
    · rw [if_pos hr]
    · rw [if_neg hr]
  · rfl

/-- C4 witness: the amended theorem applied to the initial state and the
surface with no refs available. -/
theorem C4_skip_on_null_frame_wit :
    schedStep schedInit (SchedEv.tick noRefSurf) = schedInit ∧
    captureFrame zeroSurf = some (Payload.dataUrl 0 0) :=
  C4_skip_on_null_frame schedInit noRefSurf (by decide)

/-- C5 counterexample: when the getUserMedia promise resolves after the video
element is gone (teardown during the permission await), the acquired stream
is never attached to srcObject, and stopCamera — which stops only the tracks
reachable through srcObject — leaves that hardware track open. -/
theorem C5_unattached_leak_cex :
    ((camRun [CamEv.startResolve false, CamEv.stopCamera]).acquired.any
      (fun t => !t.stopped)) = true ∧
    (camRun [CamEv.startResolve false, CamEv.stopCamera]).acquired = [⟨0, false⟩] := by
  decide

/-- C5 (amended): stopCamera is a no-op when the camera was never started,
calling it repeatedly equals calling it once (track.stop is idempotent), and
after a start whose stream was attached to the video element a single stop
leaves every acquired hardware track stopped.  (A stream acquired while the
video element was absent is never attached and escapes stop; see the
counterexample.) -/
theorem C5_stop_idempotent (s : CamState) :
    camStep camInit CamEv.stopCamera = camInit ∧
    camStep (camStep s CamEv.stopCamera) CamEv.stopCamera = camStep s CamEv.stopCamera ∧
    ((camRun [CamEv.startResolve true, CamEv.stopCamera]).acquired.all
      (fun t => t.stopped)) = true := by
  refine ⟨rfl, ?_, by decide⟩
  cases h : s.srcObject with
  | none => simp only [camStep, h]
  | some ids => simp only [camStep, h, stopTracks_idem]

/-- C6 counterexample: after a successful cycle published a result, a later
cycle fails; the failure is only logged — no none/failure marker is
published and no error channel is set — so the store still holds the earlier
success, contradicting the claim's required failure marker. -/
theorem C6_failure_keeps_results_cex :
    (schedRun [SchedEv.start, SchedEv.tick goodSurf, SchedEv.settleOk 5,
               SchedEv.tick goodSurf, SchedEv.settleErr]).results = some (1, 5) ∧
    (schedRun [SchedEv.start, SchedEv.tick goodSurf, SchedEv.settleOk 5,
               SchedEv.tick goodSurf, SchedEv.settleErr]).results ≠ none := by
  decide

/-- C6 (amended): a failed submission does not stop the scheduler — it
leaves the published results untouched (no failure marker, no surfaced
error), clears the busy flag, leaves the timer running, and the very next
tick encodes and submits anew. -/
theorem C6_scheduler_survives_failure (s : SchedState) (g : Nat) (rest : List Nat)
    (surf : Surface) (p : Payload)
    (hp : s.pending = g :: rest) (hr : s.running = true)
    (hc : captureFrame surf = some p) :
    (schedStep s SchedEv.settleErr).results = s.results ∧
    (schedStep s SchedEv.settleErr).busy = false ∧
    (schedStep s SchedEv.settleErr).running = true ∧
    (schedStep (schedStep s SchedEv.settleErr) (SchedEv.tick surf)).submits =
      s.submits + 1 := by
  have hstep : schedStep s SchedEv.settleErr = { s with pending := rest, busy := false } := by
    simp only [schedStep]
    rw [hp]
  refine ⟨by rw [hstep], by rw [hstep], by rw [hstep]; exact hr, ?_⟩
  rw [hstep]
  simp only [schedStep, hc]
  rw [if_pos hr]
  rw [if_neg (by simp)]

/-- C6 witness: the amended theorem applied to the in-flight state reached by
[start, tick] and the frame-producing surface. -/
theorem C6_scheduler_survives_failure_wit :
    (schedStep (schedRun [SchedEv.start, SchedEv.tick goodSurf])
        SchedEv.settleErr).results =
      (schedRun [SchedEv.start, SchedEv.tick goodSurf]).results ∧
    (schedStep (schedRun [SchedEv.start, SchedEv.tick goodSurf])
        SchedEv.settleErr).busy = false ∧
    (schedStep (schedRun [SchedEv.start, SchedEv.tick goodSurf])
        SchedEv.settleErr).running = true ∧
    (schedStep (schedStep (schedRun [SchedEv.start, SchedEv.tick goodSurf])
        SchedEv.settleErr) (SchedEv.tick goodSurf)).submits =
      (schedRun [SchedEv.start, SchedEv.tick goodSurf]).submits + 1 :=
  C6_scheduler_survives_failure (schedRun [SchedEv.start, SchedEv.tick goodSurf])
    1 [] goodSurf (Payload.dataUrl 640 480) (by decide) (by decide) (by decide)

end FaceRecog
